import Mathlib

/-!
Shallow embedding of the bocker container runtime (src/bocker_impl.py) and
verification of the frozen claims about it.

The store is modelled as a list of copy-on-write subvolumes.  The existence
check, the id generator, the ip/mac suffix derivation, the run script, the
commit script, the logs command and the layer-processing part of pull are
translated from the source.  Kernel-side operations (ip, cgroup tools) are
modelled as steps of a state machine over a system state; steps that can fail
for external reasons consult a success oracle, while store operations fail
deterministically from the store state, mirroring errexit semantics of the
embedded bash scripts.
-/

set_option maxRecDepth 40000

namespace Bocker

/-- A copy-on-write subvolume in the store: its name, whether its tree has an
etc directory, its small metadata files (relative path, contents) and an
abstract payload standing for the rest of the filesystem tree. -/
structure Vol where
  name : String
  hasEtc : Bool
  files : List (String × String)
  payload : Nat
deriving DecidableEq

/-- Fixed fields of one line of the btrfs subvolume list output; the numeric
fields are modelled with representative constants. -/
def listLinePre : List Char := "ID 256 gen 25 top level 5 path ".data

/-- Stdout of btrfs subvolume list over the store: one newline-terminated line
per subvolume, ending in the subvolume name. -/
def subvolListOutput (store : List Vol) : List Char :=
  (store.map (fun v => listLinePre ++ v.name.data ++ ['\n'])).flatten

/-- Bocker._bocker_check: runs btrfs subvolume list and applies the Python
membership operator, i.e. substring containment of the id in the whole stdout
(src/bocker_impl.py line 91: container_id in result.stdout). -/
def bocker_check (store : List Vol) (id : String) : Bool :=
  decide (id.data <:+: subvolListOutput store)

/-- Bocker._generate_uuid with the random draw made explicit: the source
formats the prefix followed by random.randint 42002 42254 (both ends
inclusive). -/
def generate_uuid (pre : String) (n : Nat) : String :=
  pre ++ toString n

/-- Last k characters of a string, as Python s[-k:] for strings of length at
least k. -/
def lastChars (k : Nat) (s : String) : List Char :=
  (s.data.reverse.take k).reverse

/-- The ip suffix derivation of Bocker.run (src/bocker_impl.py line 320):
uuid[-3:].replace removing every zero digit, with the literal one substituted
for an empty result. -/
def ipSuffix (uuid : String) : String :=
  let r := (lastChars 3 uuid).filter (fun c => c ≠ '0')
  if r = [] then "1" else ⟨r⟩

/-- The ip suffix derivation of the bash-port variant (src/bocker.py line 185):
uuid[-3:].lstrip of zeros, with the literal one substituted for an empty
result. -/
def ipSuffixLstrip (uuid : String) : String :=
  let r := (lastChars 3 uuid).dropWhile (fun c => c = '0')
  if r = [] then "1" else ⟨r⟩

/-- The mac suffix derivation of Bocker.run (src/bocker_impl.py line 321):
the third-from-last character, a colon, and the last two characters. -/
def macSuffix (uuid : String) : String :=
  ⟨(lastChars 3 uuid).take 1⟩ ++ ":" ++ ⟨lastChars 2 uuid⟩

/-- Lookup of a volume by exact name, modelling a filesystem path lookup of
store-root/name. -/
def findVol (store : List Vol) (id : String) : Option Vol :=
  store.find? (fun v => v.name = id)

/-- Write (create or overwrite) a small file inside a volume. -/
def setFile (rel contents : String) (v : Vol) : Vol :=
  { v with files := (rel, contents) :: v.files.filter (fun p => p.1 ≠ rel) }

/-- Apply a function to the volume of the given name, if present. -/
def updateVol (store : List Vol) (id : String) (f : Vol → Vol) : List Vol :=
  store.map (fun v => if v.name = id then f v else v)

/-- System state touched by the run script: the store volumes, the host-side
virtual ethernet devices, the network namespaces and the cgroups. -/
structure SysState where
  vols : List Vol
  veths : List String
  netns : List String
  cgroups : List String
deriving DecidableEq

/-- One line of the bash script emitted by Bocker.run
(src/bocker_impl.py lines 323-353), in source order. -/
inductive Step where
  | linkAdd (dev peer : String)
  | linkSetUp (dev : String)
  | linkSetMaster (dev bridge : String)
  | netnsAdd (ns : String)
  | linkSetNs (dev ns : String)
  | nsLoUp (ns : String)
  | nsSetMac (ns dev mac : String)
  | nsAddrAdd (ns dev addr : String)
  | nsLinkUp (ns dev : String)
  | nsRouteAdd (ns gw : String)
  | snapshot (src dst : String)
  | writeResolv (id : String)
  | writeFile (id rel contents : String)
  | cgCreate (id : String)
  | cgSet (id key val : String)
  | childExec (id : String)
  | linkDel (dev : String)
  | netnsDel (ns : String)
deriving DecidableEq

/-- Effect of one script step on the system state; none is a failure that is
determined by the state itself (missing snapshot source, missing etc
directory, missing volume or device).  Steps of external tools have no
state-determined failure here; their external failures are injected by the
oracle of execScript. -/
def applyStep (st : SysState) : Step → Option SysState
  | .linkAdd dev peer => some { st with veths := st.veths ++ [dev, peer] }
  | .linkSetUp _ => some st
  | .linkSetMaster _ _ => some st
  | .netnsAdd ns => some { st with netns := st.netns ++ [ns] }
  | .linkSetNs dev _ =>
      if dev ∈ st.veths then some { st with veths := st.veths.filter (fun d => d ≠ dev) }
      else none
  | .nsLoUp _ => some st
  | .nsSetMac _ _ _ => some st
  | .nsAddrAdd _ _ _ => some st
  | .nsLinkUp _ _ => some st
  | .nsRouteAdd _ _ => some st
  | .snapshot src dst =>
      match findVol st.vols src with
      | some v => some { st with vols := st.vols ++ [{ v with name := dst }] }
      | none => none
  | .writeResolv id =>
      match findVol st.vols id with
      | some v =>
          if v.hasEtc then
            some { st with vols := updateVol st.vols id (setFile "etc/resolv.conf" "nameserver 8.8.8.8") }
          else none
      | none => none
  | .writeFile id rel contents =>
      if (findVol st.vols id).isSome then
        some { st with vols := updateVol st.vols id (setFile rel contents) }
      else none
  | .cgCreate id => some { st with cgroups := st.cgroups ++ [id] }
  | .cgSet id _ _ => if id ∈ st.cgroups then some st else none
  | .childExec _ => some st
  | .linkDel dev =>
      if dev ∈ st.veths then some { st with veths := st.veths.filter (fun d => d ≠ dev) }
      else none
  | .netnsDel ns =>
      if ns ∈ st.netns then some { st with netns := st.netns.filter (fun m => m ≠ ns) }
      else none

/-- Output and exit status of the contained child process. -/
structure ChildRun where
  log : String
  exitOk : Bool
deriving DecidableEq

/-- Execute a script under bash errexit semantics: the oracle gives the
external success of the step at each index, and the first failing step (by
oracle or by state) aborts the script with the state reached so far and the
flag false.  The child execution pipeline ends in or-true in the source
(src/bocker_impl.py line 349), so it never aborts the script whatever the
exit status of the child; its merged output is teed to the log file of the
container volume when that volume exists. -/
def execScript (oracle : Nat → Bool) (child : ChildRun) :
    List Step → Nat → SysState → Bool × SysState
  | [], _, st => (true, st)
  | .childExec id :: rest, i, st =>
      let st1 :=
        if (findVol st.vols id).isSome then
          { st with vols := updateVol st.vols id (setFile (id ++ ".log") child.log) }
        else st
      execScript oracle child rest (i + 1) st1
  | step :: rest, i, st =>
      if oracle i then
        match applyStep st step with
        | some st1 => execScript oracle child rest (i + 1) st1
        | none => (false, st)
      else (false, st)

/-- Configured cpu share (BockerConfig default). -/
def cpu_share : Nat := 512

/-- Configured memory limit in megabytes (BockerConfig default). -/
def mem_limit : Nat := 512

/-- The bash script of Bocker.run (src/bocker_impl.py lines 323-353) for the
given image id, container id and command, line by line in source order. -/
def runScript (image_id uuid command : String) : List Step :=
  [ .linkAdd ("veth0_" ++ uuid) ("veth1_" ++ uuid),
    .linkSetUp ("veth0_" ++ uuid),
    .linkSetMaster ("veth0_" ++ uuid) "bridge0",
    .netnsAdd ("netns_" ++ uuid),
    .linkSetNs ("veth1_" ++ uuid) ("netns_" ++ uuid),
    .nsLoUp ("netns_" ++ uuid),
    .nsSetMac ("netns_" ++ uuid) ("veth1_" ++ uuid) ("02:42:ac:11:00" ++ macSuffix uuid),
    .nsAddrAdd ("netns_" ++ uuid) ("veth1_" ++ uuid) ("10.0.0." ++ ipSuffix uuid ++ "/24"),
    .nsLinkUp ("netns_" ++ uuid) ("veth1_" ++ uuid),
    .nsRouteAdd ("netns_" ++ uuid) "10.0.0.1",
    .snapshot image_id uuid,
    .writeResolv uuid,
    .writeFile uuid (uuid ++ ".cmd") command,
    .cgCreate uuid,
    .cgSet uuid "cpu.shares" (toString cpu_share),
    .cgSet uuid "memory.limit_in_bytes" (toString (mem_limit * 1000000)),
    .childExec uuid,
    .linkDel ("veth0_" ++ uuid),
    .netnsDel ("netns_" ++ uuid) ]

/-- Python str.strip with no argument: remove leading and trailing whitespace
characters. -/
def pyStrip (s : String) : String :=
  ⟨((s.data.dropWhile Char.isWhitespace).reverse.dropWhile Char.isWhitespace).reverse⟩

/-- Outcome of Bocker.run as distinguished by its early returns and final
script execution. -/
inductive RunOutcome where
  | usage
  | noSuchImage
  | emptyCommand
  | scriptDone (ok : Bool)
deriving DecidableEq

/-- Bocker.run (src/bocker_impl.py lines 299-354).  The random draws are the
stream gen, fuel bounds the collision-retry recursion of line 318 (the source
recursion is unbounded; exhausted fuel, value none, models the recursion not
having returned after fuel retries), i is the index of the next random draw.
Argument handling, the image existence check, the empty-command check, the id
generation with retry, and the script execution follow the source order. -/
def runCmd (oracle : Nat → Bool) (child : ChildRun) (gen : Nat → Nat) :
    Nat → Nat → SysState → List String → Option (RunOutcome × SysState)
  | 0, _, _, _ => none
  | _ + 1, _, st, [] => some (.usage, st)
  | _ + 1, _, st, [_] => some (.usage, st)
  | fuel + 1, i, st, image_id :: a :: rest =>
      if bocker_check st.vols image_id then
        let command := String.intercalate " " (a :: rest)
        if pyStrip command = "" then some (.emptyCommand, st)
        else
          let uuid := generate_uuid "ps_" (gen i)
          if bocker_check st.vols uuid then
            runCmd oracle child gen fuel (i + 1) st (image_id :: a :: rest)
          else
            let r := execScript oracle child (runScript image_id uuid command) 0 st
            some (.scriptDone r.1, r.2)
      else some (.noSuchImage, st)

/-- Outcome of Bocker.commit: the two existence-check early returns, the two
possible errexit aborts of its bash script, and success. -/
inductive CommitOutcome where
  | noSuchContainer
  | noSuchImage
  | deleteFailed
  | snapshotFailed
  | ok
deriving DecidableEq

/-- Bocker.commit (src/bocker_impl.py lines 401-424): check the container id,
check the image id, then run a bash script under errexit that deletes the
target image volume, best-effort deletes its cgroup, and snapshots the
container volume at the target image id.  The btrfs delete fails when no
volume of that exact name exists; the snapshot fails when no container volume
of that exact name exists, after the delete already happened. -/
def commit (store : List Vol) (cgs : List String) (container_id image_id : String) :
    CommitOutcome × List Vol × List String :=
  if bocker_check store container_id then
    if bocker_check store image_id then
      match findVol store image_id with
      | none => (.deleteFailed, store, cgs)
      | some _ =>
          let store1 := store.filter (fun v => v.name ≠ image_id)
          let cgs1 := cgs.filter (fun c => c ≠ image_id)
          match findVol store1 container_id with
          | none => (.snapshotFailed, store1, cgs1)
          | some v => (.ok, store1 ++ [{ v with name := image_id }], cgs1)
    else (.noSuchImage, store, cgs)
  else (.noSuchContainer, store, cgs)

/-- Outcome of Bocker.logs: the two error returns and the verbatim file
contents on success. -/
inductive LogsOutcome where
  | noSuchContainer
  | noLog
  | output (s : String)
deriving DecidableEq

/-- Existence and contents of the log file at store-root/id/id.log: present
exactly when a volume of that exact name holds the file id.log. -/
def logFileLookup (store : List Vol) (container_id : String) : Option String :=
  (findVol store container_id).bind (fun v => v.files.lookup (container_id ++ ".log"))

/-- Bocker.logs (src/bocker_impl.py lines 377-399): existence check on the
container id, then a filesystem check of store-root/id/id.log, then the file
contents emitted verbatim. -/
def logs (store : List Vol) (container_id : String) : LogsOutcome :=
  if bocker_check store container_id then
    match logFileLookup store container_id with
    | some contents => .output contents
    | none => .noLog
  else .noSuchContainer

/-- Outcome of the processing stage of Bocker.pull. -/
inductive PullOutcome where
  | missingManifest
  | storeFailure
  | ok
deriving DecidableEq

/-- Processing of one layer tar of the manifest (src/bocker_impl.py lines
210-215): when the layer is present among the member names it is unpacked
(counted) and the tar removed; when it is absent the os.path.exists guard
skips it without any error. -/
def layerStep (acc : Nat × List String) (layer : String) : Nat × List String :=
  if layer ∈ acc.2 then (acc.1 + 1, acc.2.filter (fun m => m ≠ layer)) else acc

/-- Bocker.pull, processing stage (src/bocker_impl.py lines 186-225), after
download and archive extraction: the manifest search result (none when no
manifest.json was found), the set of member names present in the process
directory, the freshly drawn image id and the name:tag source string.  For
each Layers entry of the manifest, a layer that is present is unpacked and
removed; a layer that is absent is skipped by the os.path.exists guard of
line 212.  On success a volume is created at the image id and img.source is
written; the volume creation fails when a volume of that name exists. -/
def pullProcess (manifest : Option (List (Option (List String))))
    (present : List String) (img_uuid source : String) (store : List Vol) :
    PullOutcome × Nat × List Vol :=
  match manifest with
  | none => (.missingManifest, 0, store)
  | some entries =>
      let layers := (entries.map (fun e => e.getD [])).flatten
      let extracted := (layers.foldl layerStep (0, present)).1
      if (findVol store img_uuid).isSome then (.storeFailure, extracted, store)
      else
        (.ok, extracted,
          store ++ [⟨img_uuid, true, [("img.source", source)], extracted⟩])

/-- Fixture: a store holding one image volume with abstract payload. -/
def oneImageState (p : Nat) : SysState :=
  ⟨[⟨"img_42002", true, [("img.source", "d")], p⟩], [], [], []⟩

/-- Fixture: the run script of container ps_42100 over image img_42002,
executed with every external step succeeding. -/
def runAllOk (p : Nat) (child : ChildRun) : Bool × SysState :=
  execScript (fun _ => true) child (runScript "img_42002" "ps_42100" "echo foo") 0
    (oneImageState p)

/-- Fixture: the run script of container ps_42100 over image img_42002,
executed with exactly the step of index i failing. -/
def runFailingAt (i : Nat) : Bool × SysState :=
  execScript (fun j => j ≠ i) ⟨"", true⟩ (runScript "img_42002" "ps_42100" "echo foo") 0
    (oneImageState 7)

/-! Helper lemmas shared by the claim theorems. -/

lemma data_append_eq (a b : String) : (a ++ b).data = a.data ++ b.data :=
  String.data_append a b

lemma string_affix_inj (p q s t : String) (h : p ++ s ++ q = p ++ t ++ q) : s = t := by
  have hd : (p.data ++ s.data) ++ q.data = (p.data ++ t.data) ++ q.data := by
    have := congrArg String.data h
    simpa [data_append_eq] using this
  have h1 : p.data ++ s.data = p.data ++ t.data := List.append_cancel_right hd
  have h2 : s.data = t.data := List.append_cancel_left h1
  exact String.ext h2

lemma lastChars_append (k : Nat) (a b : String) (h : k ≤ b.data.length) :
    lastChars k (a ++ b) = lastChars k b := by
  unfold lastChars
  rw [data_append_eq, List.reverse_append, List.take_append_of_le_length (by simpa)]

lemma ipSuffix_range_aux :
    ∀ m, m < 253 →
      ipSuffix (generate_uuid "ps_" (42002 + m)) ≠ "0"
      ∧ ipSuffix (generate_uuid "ps_" (42002 + m)) ≠ ""
      ∧ ipSuffixLstrip (generate_uuid "ps_" (42002 + m)) ≠ "0"
      ∧ ipSuffixLstrip (generate_uuid "ps_" (42002 + m)) ≠ "" := by decide

lemma uuid_digits_aux :
    ∀ m, m < 253 →
      (lastChars 3 (toString (42002 + m))).all Char.isDigit = true
      ∧ 3 ≤ (toString (42002 + m)).data.length := by decide

/-- C3, corrected.  Claim: the existence check is true iff a subvolume named
exactly id is listed, and a listed name merely containing id as a substring
does not make it succeed.  In the source the check is the Python membership
operator applied to the whole stdout of btrfs subvolume list, so it is a
substring test: a listed exact name does imply success, and success is
exactly substring containment in the listing output. -/
theorem bocker_check_substring_semantics :
    ∀ (store : List Vol) (id : String),
      ((∃ v ∈ store, v.name = id) → bocker_check store id = true)
      ∧ (bocker_check store id = true ↔ id.data <:+: subvolListOutput store) := by
  intro store id
  constructor
  · rintro ⟨v, hv, rfl⟩
    have h1 : (listLinePre ++ v.name.data ++ ['\n'])
        ∈ store.map (fun u => listLinePre ++ u.name.data ++ ['\n']) :=
      List.mem_map_of_mem _ hv
    have h2 : (listLinePre ++ v.name.data ++ ['\n']) <:+: subvolListOutput store :=
      List.infix_of_mem_flatten h1
    have h3 : v.name.data <:+: listLinePre ++ v.name.data ++ ['\n'] :=
      ⟨listLinePre, ['\n'], by simp⟩
    simpa [bocker_check] using h3.trans h2
  · simp [bocker_check]

/-- Counterexample to C3 as stated: the store lists only a subvolume named
ps_42100, no subvolume is named ps_4210, yet the check succeeds for ps_4210
because it is a substring of the listing. -/
theorem bocker_check_substring_counterexample :
    bocker_check [⟨"ps_42100", true, [], 0⟩] "ps_4210" = true
    ∧ (∀ v ∈ [Vol.mk "ps_42100" true [] 0], v.name ≠ "ps_4210") := by decide

/-- Witness for the C3 theorem at a concrete store and id. -/
theorem bocker_check_substring_witness :
    bocker_check [⟨"ps_42100", true, [], 0⟩] "ps_42100" = true :=
  (bocker_check_substring_semantics [⟨"ps_42100", true, [], 0⟩] "ps_42100").1
    ⟨⟨"ps_42100", true, [], 0⟩, by simp, rfl⟩

/-- C9, confirmed.  For every generated container id, the derived ip suffix is
never the digit zero and never empty (the literal one is substituted for an
empty derivation), in both the replace variant of src/bocker_impl.py and the
lstrip variant of src/bocker.py; hence the address the run script assigns to
veth1 is never the first-hop-reserved 10.0.0.0. -/
theorem run_ip_suffix_never_zero (n : Nat) (h1 : 42002 ≤ n) (h2 : n ≤ 42254) :
    ipSuffix (generate_uuid "ps_" n) ≠ "0"
    ∧ ipSuffix (generate_uuid "ps_" n) ≠ ""
    ∧ ipSuffixLstrip (generate_uuid "ps_" n) ≠ "0"
    ∧ ∀ (img cmd ns dev addr : String),
        Step.nsAddrAdd ns dev addr ∈ runScript img (generate_uuid "ps_" n) cmd →
        addr ≠ "10.0.0.0/24" := by
  have hn : 42002 + (n - 42002) = n := by omega
  have h := ipSuffix_range_aux (n - 42002) (by omega)
  rw [hn] at h
  refine ⟨h.1, h.2.1, h.2.2.1, ?_⟩
  intro img cmd ns dev addr hmem heq
  have haddr : addr = "10.0.0." ++ ipSuffix (generate_uuid "ps_" n) ++ "/24" := by
    simp only [runScript, List.mem_cons, List.not_mem_nil, or_false] at hmem
    rcases hmem with h' | h' | h' | h' | h' | h' | h' | h' | h' | h' | h' | h' | h' | h' | h' | h' | h' | h' | h' <;>
      (cases h'; try rfl)
  rw [haddr] at heq
  have : ipSuffix (generate_uuid "ps_" n) = "0" :=
    string_affix_inj "10.0.0." "/24" _ "0" (by rw [heq]; rfl)
  exact h.1 this

/-- Witness for the C9 theorem at the concrete draw 42100. -/
theorem run_ip_suffix_never_zero_witness :
    (42002 ≤ 42100 ∧ 42100 ≤ 42254)
    ∧ ipSuffix (generate_uuid "ps_" 42100) ≠ "0"
    ∧ ipSuffix (generate_uuid "ps_" 42100) ≠ ""
    ∧ ipSuffixLstrip (generate_uuid "ps_" 42100) ≠ "0"
    ∧ ∀ (img cmd ns dev addr : String),
        Step.nsAddrAdd ns dev addr ∈ runScript img (generate_uuid "ps_" 42100) cmd →
        addr ≠ "10.0.0.0/24" :=
  ⟨⟨by decide, by decide⟩, run_ip_suffix_never_zero 42100 (by decide) (by decide)⟩

/-- C10, confirmed.  Every id produced by the generator is the prefix followed
by the decimal numeral of an integer in the closed range 42002 to 42254, its
last three characters are decimal digits, and at most 253 distinct ids exist
per prefix. -/
theorem generate_uuid_shape (p : String) (n : Nat) (h1 : 42002 ≤ n) (h2 : n ≤ 42254) :
    generate_uuid p n = p ++ toString n
    ∧ (∀ c ∈ lastChars 3 (generate_uuid p n), c.isDigit = true)
    ∧ ((Finset.Icc 42002 42254).image (generate_uuid p)).card ≤ 253 := by
  have hn : 42002 + (n - 42002) = n := by omega
  have hdig := uuid_digits_aux (n - 42002) (by omega)
  rw [hn] at hdig
  refine ⟨rfl, ?_, ?_⟩
  · intro c hc
    have hrw : lastChars 3 (generate_uuid p n) = lastChars 3 (toString n) :=
      lastChars_append 3 p (toString n) hdig.2
    rw [hrw] at hc
    exact List.all_eq_true.mp hdig.1 c hc
  · calc ((Finset.Icc 42002 42254).image (generate_uuid p)).card
        ≤ (Finset.Icc 42002 42254).card := Finset.card_image_le
    _ ≤ 253 := by simp [Nat.card_Icc]

/-- Witness for the C10 theorem at the concrete prefix and draw. -/
theorem generate_uuid_shape_witness :
    (42002 ≤ 42002 ∧ 42002 ≤ 42254)
    ∧ generate_uuid "ps_" 42002 = "ps_" ++ toString 42002
    ∧ (∀ c ∈ lastChars 3 (generate_uuid "ps_" 42002), c.isDigit = true)
    ∧ ((Finset.Icc 42002 42254).image (generate_uuid "ps_")).card ≤ 253 :=
  ⟨⟨by decide, by decide⟩, generate_uuid_shape "ps_" 42002 (by decide) (by decide)⟩

/-- Fixture: a store in which the only id the constant generator ever draws,
ps_42100, is already taken. -/
def collisionState : SysState :=
  ⟨[⟨"img_42002", true, [], 7⟩, ⟨"ps_42100", true, [], 3⟩], [], [], []⟩

/-- Counterexample to C4 as stated: in a store where every generated id
collides, even after 254 retries (one more than the whole id space per
prefix) the run command has neither produced a container nor surfaced any
IdCollision failure; the source retry (src/bocker_impl.py line 318) is plain
unbounded recursion whose result type has no collision outcome at all. -/
theorem run_collision_retry_counterexample :
    runCmd (fun _ => true) ⟨"", true⟩ (fun _ => 42100) 254 0 collisionState
      ["img_42002", "echo", "foo"] = none := by decide

/-- C4, corrected.  Claim: a colliding fresh id is regenerated up to a bound
of N retries, then run fails with IdCollision, and the retry always
terminates.  In the source the retry is unbounded recursion with no
IdCollision outcome: when every generated id collides, no amount of fuel
makes the recursion return, so the process terminates only by exhausting the
Python recursion limit. -/
theorem run_collision_retry_unbounded :
    ∀ (fuel i : Nat),
      runCmd (fun _ => true) ⟨"", true⟩ (fun _ => 42100) fuel i collisionState
        ["img_42002", "echo", "foo"] = none := by
  intro fuel
  induction fuel with
  | zero => intro i; rfl
  | succ k ih =>
      intro i
      have h1 : bocker_check collisionState.vols "img_42002" = true := by decide
      have h2 : ¬ pyStrip (String.intercalate " " ["echo", "foo"]) = "" := by decide
      have h3 : bocker_check collisionState.vols (generate_uuid "ps_" 42100) = true := by
        decide
      simp [runCmd, h1, h2, h3]
      exact ih (i + 1)

/-- Counterexample to C5 as stated: a manifest referencing the layer
layer1.tar while no such member is present does not fail with MalformedImage;
the processing succeeds, unpacks zero layers, and registers the image. -/
theorem pull_missing_layer_counterexample :
    pullProcess (some [some ["layer1.tar"]]) [] "img_42010" "centos:7" []
      = (.ok, 0, [⟨"img_42010", true, [("img.source", "centos:7")], 0⟩]) := by decide

lemma foldl_layerStep_nil_present :
    ∀ layers : List String, layers.foldl layerStep (0, []) = (0, []) := by
  intro layers
  induction layers with
  | nil => rfl
  | cons l ls ih => simpa [layerStep] using ih

/-- C5, amended.  A missing manifest makes pull fail (missing manifest
outcome) with the store unchanged, as claimed; but a layer tar that the
manifest references and that is absent from the extracted archive is silently
skipped rather than failing: with no members present at all, every referenced
layer is skipped, zero layers are unpacked, and pull still registers the
image. -/
theorem pull_manifest_and_layer_handling :
    (∀ (present : List String) (img src : String) (store : List Vol),
        pullProcess none present img src store = (.missingManifest, 0, store))
    ∧ (∀ (entries : List (Option (List String))) (img src : String) (store : List Vol),
        findVol store img = none →
        pullProcess (some entries) [] img src store
          = (.ok, 0, store ++ [⟨img, true, [("img.source", src)], 0⟩])) := by
  constructor
  · intro present img src store
    rfl
  · intro entries img src store h
    simp [pullProcess, foldl_layerStep_nil_present, h]

/-- Witness for the C5 theorem at concrete inputs. -/
theorem pull_manifest_and_layer_handling_witness :
    pullProcess none ["m"] "img_42010" "centos:7" [⟨"img_42002", true, [], 1⟩]
        = (.missingManifest, 0, [⟨"img_42002", true, [], 1⟩])
    ∧ pullProcess (some [some ["a.tar"], none]) [] "img_42010" "centos:7" []
        = (.ok, 0, [⟨"img_42010", true, [("img.source", "centos:7")], 0⟩]) :=
  ⟨pull_manifest_and_layer_handling.1 ["m"] "img_42010" "centos:7" _,
   pull_manifest_and_layer_handling.2 [some ["a.tar"], none] "img_42010" "centos:7" [] rfl⟩

/-- Counterexample to C6 as stated: no volume is named ps_4210, so commit of
ps_4210 to the existing image img_42002 should fail with NoSuchEntity and
leave the store unchanged; instead the substring existence check passes, the
target image volume is deleted, and only then the snapshot fails, so the
outcome is a store failure and the image volume is lost. -/
theorem commit_substring_counterexample :
    commit [⟨"ps_42100", true, [], 1⟩, ⟨"img_42002", true, [], 2⟩] ["img_42002"]
        "ps_4210" "img_42002"
      = (.snapshotFailed, [⟨"ps_42100", true, [], 1⟩], [])
    ∧ (∀ v ∈ [Vol.mk "ps_42100" true [] 1, Vol.mk "img_42002" true [] 2],
        v.name ≠ "ps_4210") := by decide

/-- C6, amended.  Commit fails with NoSuchEntity and leaves the store
unchanged when either id fails the substring existence check; when both ids
pass the check and name exact volumes, it deletes the target image volume,
best-effort deletes its cgroup, and snapshots the container volume at the
target image id, leaving the container volume itself unchanged. -/
theorem commit_contract :
    (∀ (store : List Vol) (cgs : List String) (cid iid : String),
        bocker_check store cid = false →
        commit store cgs cid iid = (.noSuchContainer, store, cgs))
    ∧ (∀ (store : List Vol) (cgs : List String) (cid iid : String),
        bocker_check store cid = true → bocker_check store iid = false →
        commit store cgs cid iid = (.noSuchImage, store, cgs))
    ∧ (∀ (p q : Nat) (cgs : List String),
        commit [⟨"ps_42100", true, [("ps_42100.cmd", "echo foo")], p⟩,
                ⟨"img_42002", true, [], q⟩] cgs "ps_42100" "img_42002"
          = (.ok,
             [⟨"ps_42100", true, [("ps_42100.cmd", "echo foo")], p⟩,
              ⟨"img_42002", true, [("ps_42100.cmd", "echo foo")], p⟩],
             cgs.filter (fun c => c ≠ "img_42002"))) := by
  refine ⟨?_, ?_, ?_⟩
  · intro store cgs cid iid h
    simp [commit, h]
  · intro store cgs cid iid h1 h2
    simp [commit, h1, h2]
  · intro p q cgs
    rfl

/-- Witness for the C6 theorem at concrete inputs. -/
theorem commit_contract_witness :
    commit [] [] "ps_42100" "img_42002" = (.noSuchContainer, [], [])
    ∧ commit [⟨"ps_42100", true, [("ps_42100.cmd", "echo foo")], 5⟩,
              ⟨"img_42002", true, [], 9⟩] ["img_42002", "ps_42100"] "ps_42100" "img_42002"
        = (.ok,
           [⟨"ps_42100", true, [("ps_42100.cmd", "echo foo")], 5⟩,
            ⟨"img_42002", true, [("ps_42100.cmd", "echo foo")], 5⟩],
           ["ps_42100"]) :=
  ⟨commit_contract.1 [] [] "ps_42100" "img_42002" (by decide),
   commit_contract.2.2 5 9 ["img_42002", "ps_42100"]⟩

/-- Counterexample to C8 as stated: the store has no volume named ps_4210 (it
only has ps_42100, with a log file), so logs of ps_4210 should fail with
NoSuchContainer; instead the substring existence check passes and it fails
with NoLog. -/
theorem logs_substring_counterexample :
    logs [⟨"ps_42100", true, [("ps_42100.log", "hello")], 5⟩] "ps_4210" = .noLog
    ∧ (∀ v ∈ [Vol.mk "ps_42100" true [("ps_42100.log", "hello")] 5],
        v.name ≠ "ps_4210")
    ∧ LogsOutcome.noLog ≠ LogsOutcome.noSuchContainer := by decide

/-- C8, amended.  Logs emits the contents of id/id.log verbatim when the file
is present; it fails with NoSuchContainer exactly when the id fails the
substring existence check against the subvolume listing, and with NoLog
exactly when that check passes but no volume named id holds the file
id.log. -/
theorem logs_contract :
    ∀ (store : List Vol) (cid : String),
      (logs store cid = .noSuchContainer ↔ bocker_check store cid = false)
      ∧ (logs store cid = .noLog
          ↔ bocker_check store cid = true ∧ logFileLookup store cid = none)
      ∧ (∀ s, logs store cid = .output s
          ↔ bocker_check store cid = true ∧ logFileLookup store cid = some s) := by
  intro store cid
  by_cases h : bocker_check store cid
  · cases hl : logFileLookup store cid <;> simp [logs, h, hl]
  · have hb : bocker_check store cid = false := by simpa using h
    simp [logs, hb]

/-- Witness for the C8 theorem: the verbatim output case at a concrete
store. -/
theorem logs_contract_witness :
    logs [⟨"ps_42100", true, [("ps_42100.log", "hello")], 5⟩] "ps_42100"
      = .output "hello" :=
  ((logs_contract [⟨"ps_42100", true, [("ps_42100.log", "hello")], 5⟩] "ps_42100").2.2
      "hello").mpr ⟨by decide, by decide⟩

/-- Counterexample to C1 as stated: the first line of the run script is the
veth creation and the snapshot is only line 10, so network setup precedes the
snapshot; and when the snapshot step fails, the already-created veth pair and
network namespace are not released and no snapshot exists, so nothing is
released in reverse order. -/
theorem run_acquisition_order_counterexample :
    (runScript "img_42002" "ps_42100" "echo foo").head?
        = some (.linkAdd "veth0_ps_42100" "veth1_ps_42100")
    ∧ (runScript "img_42002" "ps_42100" "echo foo")[10]?
        = some (.snapshot "img_42002" "ps_42100")
    ∧ (runFailingAt 10).1 = false
    ∧ "veth0_ps_42100" ∈ (runFailingAt 10).2.veths
    ∧ "netns_ps_42100" ∈ (runFailingAt 10).2.netns
    ∧ (runFailingAt 10).2.vols = (oneImageState 7).vols := by decide

/-- C1, amended.  The run script acquires the network artefacts first (steps
0 to 9), then the snapshot (step 10), then the cgroup (steps 13 to 15); a
failure of any step before the child aborts the script immediately under
errexit and releases nothing: after a failure at step i, each resource is
held exactly when its acquiring step precedes i, so every earlier-acquired
resource is leaked on every failure path. -/
theorem run_no_reverse_release (i : Nat) (h : i < 16) :
    (runFailingAt i).1 = false
    ∧ ("veth0_ps_42100" ∈ (runFailingAt i).2.veths ↔ 1 ≤ i)
    ∧ ("netns_ps_42100" ∈ (runFailingAt i).2.netns ↔ 4 ≤ i)
    ∧ ((findVol (runFailingAt i).2.vols "ps_42100").isSome = true ↔ 11 ≤ i)
    ∧ ("ps_42100" ∈ (runFailingAt i).2.cgroups ↔ 14 ≤ i) := by
  revert h
  revert i
  decide

/-- Witness for the C1 theorem: failure at the resolv.conf write, step 11,
leaves the veth pair, the network namespace and the snapshot volume all
acquired and the cgroup not yet created. -/
theorem run_no_reverse_release_witness :
    (11 < 16)
    ∧ ((runFailingAt 11).1 = false
        ∧ ("veth0_ps_42100" ∈ (runFailingAt 11).2.veths ↔ 1 ≤ 11)
        ∧ ("netns_ps_42100" ∈ (runFailingAt 11).2.netns ↔ 4 ≤ 11)
        ∧ ((findVol (runFailingAt 11).2.vols "ps_42100").isSome = true ↔ 11 ≤ 11)
        ∧ ("ps_42100" ∈ (runFailingAt 11).2.cgroups ↔ 14 ≤ 11)) :=
  ⟨by decide, run_no_reverse_release 11 (by decide)⟩

/-- C2, confirmed.  When the run script completes, for every exit status and
output of the contained child, the transient artefacts veth0 and netns of the
container are gone from the host, while the container volume persists with
its cmd and log files (the log holding the child output verbatim), the image
volume is untouched, and the cgroup is left in place. -/
theorem run_teardown_and_persistence (p : Nat) (child : ChildRun) :
    (runAllOk p child).1 = true
    ∧ "veth0_ps_42100" ∉ (runAllOk p child).2.veths
    ∧ "veth1_ps_42100" ∉ (runAllOk p child).2.veths
    ∧ "netns_ps_42100" ∉ (runAllOk p child).2.netns
    ∧ "ps_42100" ∈ (runAllOk p child).2.cgroups
    ∧ findVol (runAllOk p child).2.vols "ps_42100"
        = some ⟨"ps_42100", true,
            [("ps_42100.log", child.log), ("ps_42100.cmd", "echo foo"),
             ("etc/resolv.conf", "nameserver 8.8.8.8"), ("img.source", "d")], p⟩
    ∧ findVol (runAllOk p child).2.vols "img_42002"
        = some ⟨"img_42002", true, [("img.source", "d")], p⟩ :=
  ⟨rfl, List.not_mem_nil _, List.not_mem_nil _, List.not_mem_nil _,
   List.mem_singleton.mpr rfl, rfl, rfl⟩

/-- Counterexample to C7 as stated: the image id img_4200 names no volume in
the store, yet run does not fail with NoSuchEntity: the substring existence
check passes, the network setup runs, the snapshot then fails, and the
script aborts leaving veth0_ps_42100 and netns_ps_42100 in existence. -/
theorem run_nonexistent_image_counterexample :
    runCmd (fun _ => true) ⟨"", true⟩ (fun _ => 42100) 1 0 (oneImageState 7)
        ["img_4200", "echo", "foo"]
      = some (.scriptDone false,
          ⟨(oneImageState 7).vols, ["veth0_ps_42100"], ["netns_ps_42100"], []⟩)
    ∧ (∀ v ∈ (oneImageState 7).vols, v.name ≠ "img_4200") := by decide

/-- C7, amended.  Run fails with NoSuchEntity and touches nothing when the
image id fails the substring existence check; but an image id that names no
volume while passing that check (as a substring of a listed name) proceeds
into the script, creates the network artefacts, and leaks them when the
snapshot fails. -/
theorem run_nonexistent_image_contract :
    (∀ (oracle : Nat → Bool) (child : ChildRun) (gen : Nat → Nat) (fuel i : Nat)
        (st : SysState) (img a : String) (rest : List String),
        bocker_check st.vols img = false →
        runCmd oracle child gen (fuel + 1) i st (img :: a :: rest)
          = some (.noSuchImage, st))
    ∧ (runCmd (fun _ => true) ⟨"", true⟩ (fun _ => 42100) 1 0 (oneImageState 7)
          ["img_4200", "echo", "foo"]
        = some (.scriptDone false,
            ⟨(oneImageState 7).vols, ["veth0_ps_42100"], ["netns_ps_42100"], []⟩)) := by
  constructor
  · intro oracle child gen fuel i st img a rest h
    simp [runCmd, h]
  · decide

/-- Witness for the C7 theorem: on an empty store run fails with the
no-such-image outcome and the state is unchanged. -/
theorem run_nonexistent_image_contract_witness :
    runCmd (fun _ => true) ⟨"", true⟩ (fun _ => 42100) 1 0 ⟨[], [], [], []⟩
        ["img_42002", "echo", "foo"] = some (.noSuchImage, ⟨[], [], [], []⟩) :=
  run_nonexistent_image_contract.1 _ _ _ 0 0 _ "img_42002" "echo" ["foo"] (by decide)

end Bocker
